import Mathlib

/-!
# AppBackend: insertion pipeline, device enrollment fan-out, public listings

A shallow embedding of `internal/server/routes/feeds/insert.go` and
`internal/server/routes/feeds/public.go`.

* Handlers are state-passing functions over the request-scoped state they touch
  (database session, response writer, decoded object).
* The database session is a store plus a fault schedule and a log of the
  operations issued, so that "no query was run" and "a query failed" are
  statable.
* External collaborators (token signing, password hashing, URL signing, the
  SQL behind the public listings) are parameters.
-/

namespace Feeds

/-! ## gofrs/uuid -/

/-- A `uuid.UUID`: sixteen bytes, read as one big-endian number. -/
structure UUID where
  val : Nat
deriving DecidableEq, Repr

/-- The nil UUID, zero value of `uuid.UUID`. -/
def UUID.Nil : UUID := ⟨0⟩

/-- One lowercase hexadecimal digit. -/
def hexDigit (n : Nat) : Char :=
  if n % 16 < 10 then Char.ofNat (48 + n % 16) else Char.ofNat (87 + n % 16)

/-- The lowest `w` hexadecimal digits of `n`, most significant first. -/
def hexFixed : Nat → Nat → List Char
  | 0, _ => []
  | w + 1, n => hexFixed w (n / 16) ++ [hexDigit n]

/-- Canonical text form `xxxxxxxx-xxxx-xxxx-xxxx-xxxxxxxxxxxx` (`UUID.String()`). -/
def UUID.String (u : UUID) : String :=
  let h := hexFixed 32 u.val
  String.mk (h.take 8 ++ ['-'] ++ (h.drop 8).take 4 ++ ['-'] ++ (h.drop 12).take 4 ++ ['-']
    ++ (h.drop 16).take 4 ++ ['-'] ++ h.drop 20)

/-! ## Data model (only the fields the embedded code reads or writes) -/

/-- The `User` object decoded from the request body. -/
structure User where
  Nickname : String
  Password : String
deriving DecidableEq, Repr

/-- A row of one of the resource collections, seen through the `Object`
interface (`GetID`) and the `userid` column the snapshot filters on. -/
structure Object where
  ID : UUID
  UserID : UUID
deriving DecidableEq, Repr

/-- Modelled from the spec: the method `GetID` of the `Object` interface, whose
declaration is not among the sources; the spec has every resource carry "an
identifier", which the mirror row takes as `ObjectID`. -/
def Object.GetID (a : Object) : UUID := a.ID

/-- Modelled from the spec: the method `Each` of the `Objects` interface, whose
declaration is not among the sources; the spec has the snapshot act "for each
row" of the query result. The callback runs on the rows in order, on the
state it may change. -/
def Objects.Each {σ : Type} (all : List Object) (f : σ → Object → σ) (s : σ) : σ :=
  all.foldl f s

/-- The seven Go types implementing `UserEndObject`. -/
inductive UserEndType
  | UserEndBox
  | UserEndPlant
  | UserEndTimelapse
  | UserEndDevice
  | UserEndFeed
  | UserEndFeedEntry
  | UserEndFeedMedia
deriving DecidableEq, Repr

/-- A mirror row: which device (`UserEndID`) has to receive which resource
(`ObjectID`), and whether the transfer is still pending (`Dirty`). -/
structure UserEndObject where
  kind : UserEndType
  UserEndID : UUID
  ObjectID : UUID
  Dirty : Bool
deriving DecidableEq, Repr

/-- The zero value `&T{}` that the factories `func() UserEndObject` return. -/
def UserEndObject.zero (t : UserEndType) : UserEndObject := ⟨t, UUID.Nil, UUID.Nil, false⟩

/-- Modelled from the spec: the setter `SetUserEndID` of the `UserEndObject`
interface, whose declaration is not among the sources; the spec has the mirror
row carry "UserEndID". -/
def UserEndObject.SetUserEndID (o : UserEndObject) (id : UUID) : UserEndObject :=
  { o with UserEndID := id }

/-- Modelled from the spec: the setter `SetObjectID` of the `UserEndObject`
interface, whose declaration is not among the sources; the spec has the mirror
row carry "ObjectID (resource identifier)". -/
def UserEndObject.SetObjectID (o : UserEndObject) (id : UUID) : UserEndObject :=
  { o with ObjectID := id }

/-- Modelled from the spec: the setter `SetDirty` of the `UserEndObject`
interface, whose declaration is not among the sources; the spec has the mirror
row carry "a dirty/pending flag". -/
def UserEndObject.SetDirty (o : UserEndObject) (d : Bool) : UserEndObject :=
  { o with Dirty := d }

/-- The columns of a `Plant` that `fetchPublicPlants` reads (`p.ID.UUID`, `p.Name`). -/
structure Plant where
  ID : UUID
  Name : String
deriving DecidableEq, Repr

/-- The columns of a `FeedMedia` that `fetchPublicPlants` reads. -/
structure FeedMedia where
  FilePath : String
  ThumbnailPath : String
deriving DecidableEq, Repr

/-- A `FeedEntry`, passed through unread by `fetchPublicFeedEntries`. -/
structure FeedEntry where
  ID : UUID
deriving DecidableEq, Repr

/-- One entry of the public plant listing, fields in declaration order
(JSON names `id`, `name`, `thumbnailPath`, `filePath`). -/
structure publicPlantResult where
  ID : String
  Name : String
  ThumbnailPath : String
  FilePath : String
deriving DecidableEq, Repr

/-! ## net/http response writer -/

/-- What a handler wrote to the response body: a line of text, or the JSON
encoding of a value, kept as the value encoded (`publicPlantsResult`,
`publicFeedEntriesResult`). -/
inductive Written
  | text (s : String)
  | publicPlantsResult (Plants : List publicPlantResult)
  | publicFeedEntriesResult (Entries : List FeedEntry)
deriving DecidableEq, Repr

/-- The `http.ResponseWriter`: header map, status line once written, body. -/
structure ResponseWriter where
  header : List (String × String)
  status : Option Nat
  body : List Written
deriving DecidableEq, Repr

/-- Bytes allowed in a header field name (`validHeaderFieldByte`). -/
def validHeaderFieldByte (c : Char) : Bool :=
  c.isAlphanum || "!#$%&*+-.^_|~".toList.contains c || c.toNat == 39 || c.toNat == 96

/-- Letter case of a canonical header key: upper after the start and after a
hyphen, lower elsewhere. -/
def canonicalChars : Bool → List Char → List Char
  | _, [] => []
  | upper, c :: cs =>
    (if upper && c.isLower then c.toUpper
     else if !upper && c.isUpper then c.toLower
     else c) :: canonicalChars (c == '-') cs

/-- The key under which a header is stored (`textproto.CanonicalMIMEHeaderKey`):
a name holding a byte that is no token character is left as it is. -/
def CanonicalMIMEHeaderKey (k : String) : String :=
  if k.toList.all validHeaderFieldByte then String.mk (canonicalChars true k.toList) else k

/-- Replace the values of a header by one value (`w.Header().Set(key, value)`). -/
def ResponseWriter.HeaderSet (w : ResponseWriter) (key value : String) : ResponseWriter :=
  { w with header :=
      (CanonicalMIMEHeaderKey key, value) ::
        w.header.filter (fun kv => kv.1 != CanonicalMIMEHeaderKey key) }

/-- First value of a header (`w.Header().Get(key)`), `none` when absent. -/
def ResponseWriter.HeaderGet (w : ResponseWriter) (key : String) : Option String :=
  w.header.lookup (CanonicalMIMEHeaderKey key)

/-- Send the status line (`w.WriteHeader(code)`); a second call changes nothing. -/
def ResponseWriter.WriteHeader (w : ResponseWriter) (code : Nat) : ResponseWriter :=
  match w.status with
  | none => { w with status := some code }
  | some _ => w

/-- Append to the body (`w.Write`), sending status 200 first if none was sent. -/
def ResponseWriter.Write (w : ResponseWriter) (x : Written) : ResponseWriter :=
  let w1 := w.WriteHeader 200
  { w1 with body := w1.body ++ [x] }

/-- Reply with a plain-text error (`http.Error(w, error, code)`). -/
def httpError (w : ResponseWriter) (error : String) (code : Nat) : ResponseWriter :=
  let w1 := w.HeaderSet "Content-Type" "text/plain; charset=utf-8"
  let w2 := w1.HeaderSet "X-Content-Type-Options" "nosniff"
  let w3 := w2.WriteHeader code
  w3.Write (Written.text (error ++ "\n"))

/-- The status `http.StatusInternalServerError`. -/
def StatusInternalServerError : Nat := 500

/-- The status `http.StatusBadRequest`. -/
def StatusBadRequest : Nat := 400

/-! ## Database session -/

/-- The persistent rows: every row is tagged with the collection it is in. -/
structure Store where
  users : List User
  userends : List Object
  objects : List (String × Object)
  mirrors : List (String × UserEndObject)
deriving DecidableEq, Repr

/-- The database operations `insert.go` issues. -/
inductive DBOp
  | count (collection : String) (nickname : String)
  | selectAll (table : String) (userid : UUID)
  | insert (collection : String) (row : UserEndObject)
deriving DecidableEq, Repr

/-- A `sqlbuilder.Database` session: the store, the operations issued so far,
and the faults of the environment (`(i, msg)`: the operation issued when `i`
operations are in the log fails with error `msg`). -/
structure Sess where
  store : Store
  faults : List (Nat × String)
  log : List DBOp
deriving DecidableEq, Repr

/-- The error, if any, the next operation runs into. -/
def Sess.fault (s : Sess) : Option String := s.faults.lookup s.log.length

/-- Note an issued operation in the log. -/
def Sess.record (s : Sess) (op : DBOp) : Sess := { s with log := s.log ++ [op] }

/-- Number of users with a nickname, with the error of the call:
`sess.Collection("users").Find().Where("nickname = ?", nickname).Count()`. -/
def Sess.Count (s : Sess) (nickname : String) : Sess × Nat × Option String :=
  match s.fault with
  | some err => (s.record (DBOp.count "users" nickname), 0, some err)
  | none =>
    (s.record (DBOp.count "users" nickname),
      (s.store.users.filter (fun u => u.Nickname == nickname)).length, none)

/-- Rows of a resource table owned by a user, with the error of the call:
`sess.Select("*").From(table).Where("userid = ?", uid).All(&rows)`; on an
error the destination slice stays as it was created, empty. -/
def Sess.SelectAll (s : Sess) (table : String) (uid : UUID) :
    Sess × List Object × Option String :=
  match s.fault with
  | some err => (s.record (DBOp.selectAll table uid), [], some err)
  | none =>
    (s.record (DBOp.selectAll table uid),
      (s.store.objects.filter (fun r => r.1 == table && r.2.UserID == uid)).map Prod.snd, none)

/-- Insert a mirror row, with the error of the call:
`sess.Collection(collection).Insert(row)`. -/
def Sess.Insert (s : Sess) (collection : String) (row : UserEndObject) :
    Sess × Option String :=
  match s.fault with
  | some err => (s.record (DBOp.insert collection row), some err)
  | none =>
    ({ s.record (DBOp.insert collection row) with
        store := { s.store with mirrors := s.store.mirrors ++ [(collection, row)] } }, none)

/-! ## insert.go -/

/-- Request-scoped state shared by the stages of an insertion: the session and
the response writer. -/
structure Req where
  sess : Sess
  w : ResponseWriter
deriving DecidableEq, Repr

/-- One mirror row per object of `all`, inserted in `userend_<collection>`
(`fillUserEnd`); the error of `Insert` is dropped, as in the source. -/
def fillUserEnd (sess : Sess) (ueid : UUID) (collection : String) (all : List Object)
    (factory : Unit → UserEndObject) : Sess :=
  Objects.Each all (fun s a =>
    let ueo := factory ()
    let ueo := ueo.SetUserEndID ueid
    let ueo := ueo.SetObjectID a.GetID
    let ueo := ueo.SetDirty true
    (s.Insert ("userend_" ++ collection) ueo).1) sess

/-- A `jwt.Token` before signing: signing method and claims (`jwt.MapClaims`). -/
structure Token where
  method : String
  claims : List (String × String)
deriving DecidableEq, Repr

/-- Token construction (`jwt.NewWithClaims`). -/
def NewWithClaims (method : String) (claims : List (String × String)) : Token := ⟨method, claims⟩

/-- Process-wide collaborators of device enrollment: the configured secret
(`viper.GetString("JWTSecret")`) and the signer (`token.SignedString`). -/
structure Signer where
  JWTSecret : String
  SignedString : Token → String → Except String String

/-- The enrollment snapshot, lines 82 to 108 of `createUserEndHandler`: for each
of the seven resource tables, select the rows of the user and fill the mirror
collection. The errors of the seven `All` calls are dropped, as in the source. -/
def enrollSnapshot (sess : Sess) (id uid : UUID) : Sess :=
  let boxes := sess.SelectAll "boxes" uid
  let sess := fillUserEnd boxes.1 id "boxes" boxes.2.1
    (fun _ => UserEndObject.zero UserEndType.UserEndBox)
  let plants := sess.SelectAll "plants" uid
  let sess := fillUserEnd plants.1 id "plants" plants.2.1
    (fun _ => UserEndObject.zero UserEndType.UserEndPlant)
  let timelapses := sess.SelectAll "timelapses" uid
  let sess := fillUserEnd timelapses.1 id "timelapses" timelapses.2.1
    (fun _ => UserEndObject.zero UserEndType.UserEndTimelapse)
  let devices := sess.SelectAll "devices" uid
  let sess := fillUserEnd devices.1 id "devices" devices.2.1
    (fun _ => UserEndObject.zero UserEndType.UserEndDevice)
  let feeds := sess.SelectAll "feeds" uid
  let sess := fillUserEnd feeds.1 id "feeds" feeds.2.1
    (fun _ => UserEndObject.zero UserEndType.UserEndFeed)
  let feedEntries := sess.SelectAll "feedentries" uid
  let sess := fillUserEnd feedEntries.1 id "feedentries" feedEntries.2.1
    (fun _ => UserEndObject.zero UserEndType.UserEndFeedEntry)
  let feedMedias := sess.SelectAll "feedmedias" uid
  fillUserEnd feedMedias.1 id "feedmedias" feedMedias.2.1
    (fun _ => UserEndObject.zero UserEndType.UserEndFeedMedia)

/-- The post-action of `createUserEndHandler`: sign the device token, set it as
header `x-sgl-token`, run the snapshot, call the next handler `fn`. `id` is the
identifier of the inserted UserEnd and `uid` the acting user, both read from
the request context. -/
def createUserEndPost (env : Signer) (id uid : UUID) (fn : Req → Req) (r : Req) : Req :=
  let hmacSampleSecret := env.JWTSecret
  let token := NewWithClaims "HS256" [("userID", uid.String), ("userEndID", id.String)]
  match env.SignedString token hmacSampleSecret with
  | Except.error err => { r with w := httpError r.w err StatusInternalServerError }
  | Except.ok tokenString =>
    let w := r.w.HeaderSet "x-sgl-token" tokenString
    let sess := enrollSnapshot r.sess id uid
    fn { sess := sess, w := w }

/-- The decoded `User` travels with the request (`objectContextKey`), next to
the session and the response writer. -/
structure UserReq where
  sess : Sess
  w : ResponseWriter
  u : User
deriving DecidableEq, Repr

/-- The pre-check of `createUserHandler`: refuse a nickname already taken, then
replace the password by its bcrypt hash and call the next stage `fn`.
`GenerateFromPassword password cost` is `bcrypt.GenerateFromPassword`, giving
the hash (empty on failure) and the error. -/
def createUserCheck (GenerateFromPassword : String → Nat → String × Option String)
    (fn : UserReq → UserReq) (r : UserReq) : UserReq :=
  let u := r.u
  let c := r.sess.Count u.Nickname
  match c.2.2 with
  | some err => { r with sess := c.1, w := httpError r.w err StatusInternalServerError }
  | none =>
    if c.2.1 > 0 then
      { r with sess := c.1, w := httpError r.w "User already exists" StatusBadRequest }
    else
      let bc := GenerateFromPassword u.Password 8
      let u := { u with Password := bc.1 }
      match bc.2 with
      | some err => { sess := c.1, w := httpError r.w err StatusInternalServerError, u := u }
      | none => fn { sess := c.1, w := r.w, u := u }

/-! ### The handler table of insert.go -/

/-- The resource kinds of the factories `func() interface{}`. -/
inductive Kind
  | User
  | UserEnd
  | Box
  | Plant
  | Timelapse
  | Device
  | Feed
  | FeedEntry
  | FeedMedia
  | PlantSharing
deriving DecidableEq, Repr

/-- The middlewares the handlers of insert.go are assembled from, with the
arguments they are given. `userCheck` and `userEndPost` are the two closures
written in place (`createUserCheck`, `createUserEndPost`). -/
inductive Middleware
  | setUserID
  | checkAccessRight (collection : String) (field : String) (flag : Bool) (factory : Kind)
  | createUserEndObjects (collection : String) (field : String) (factory : UserEndType)
  | userCheck
  | userEndPost
deriving DecidableEq, Repr

/-- The arguments of one `insertEndpoint(collection, factory, pre, post)` call. -/
structure InsertEndpoint where
  collection : String
  factory : Kind
  pre : List Middleware
  post : List Middleware
deriving DecidableEq, Repr

/-- The handler `createUserHandler`. -/
def createUserHandler : InsertEndpoint :=
  ⟨"users", Kind.User, [Middleware.userCheck], []⟩

/-- The handler `createUserEndHandler`. -/
def createUserEndHandler : InsertEndpoint :=
  ⟨"userends", Kind.UserEnd, [Middleware.setUserID], [Middleware.userEndPost]⟩

/-- The handler `createBoxHandler`. -/
def createBoxHandler : InsertEndpoint :=
  ⟨"boxes", Kind.Box,
    [Middleware.setUserID, Middleware.checkAccessRight "devices" "DeviceID" true Kind.Device],
    [Middleware.createUserEndObjects "userend_devices" "DeviceID" UserEndType.UserEndDevice]⟩

/-- The handler `createPlantHandler`. -/
def createPlantHandler : InsertEndpoint :=
  ⟨"plants", Kind.Plant,
    [Middleware.setUserID, Middleware.checkAccessRight "boxes" "BoxID" false Kind.Box],
    [Middleware.createUserEndObjects "userend_plants" "PlantID" UserEndType.UserEndPlant]⟩

/-- The handler `createTimelapseHandler`. -/
def createTimelapseHandler : InsertEndpoint :=
  ⟨"timelapses", Kind.Timelapse,
    [Middleware.setUserID, Middleware.checkAccessRight "plants" "PlantID" false Kind.Plant],
    [Middleware.createUserEndObjects "userend_timelapses" "TimelapseID"
      UserEndType.UserEndTimelapse]⟩

/-- The handler `createDeviceHandler`. -/
def createDeviceHandler : InsertEndpoint :=
  ⟨"devices", Kind.Device, [Middleware.setUserID],
    [Middleware.createUserEndObjects "userend_devices" "DeviceID" UserEndType.UserEndDevice]⟩

/-- The handler `createFeedHandler`. -/
def createFeedHandler : InsertEndpoint :=
  ⟨"feeds", Kind.Feed, [Middleware.setUserID],
    [Middleware.createUserEndObjects "userend_feeds" "FeedID" UserEndType.UserEndFeed]⟩

/-- The handler `createFeedEntryHandler`. -/
def createFeedEntryHandler : InsertEndpoint :=
  ⟨"feedentries", Kind.FeedEntry,
    [Middleware.setUserID, Middleware.checkAccessRight "feeds" "FeedID" false Kind.Feed],
    [Middleware.createUserEndObjects "userend_feedentries" "FeedEntryID"
      UserEndType.UserEndFeedEntry]⟩

/-- The handler `createFeedMediaHandler`. -/
def createFeedMediaHandler : InsertEndpoint :=
  ⟨"feedmedias", Kind.FeedMedia,
    [Middleware.setUserID,
      Middleware.checkAccessRight "feedentries" "FeedEntryID" false Kind.FeedEntry],
    [Middleware.createUserEndObjects "userend_feedmedias" "FeedMediaID"
      UserEndType.UserEndFeedMedia]⟩

/-- The handler `createPlantSharingHandler`. -/
def createPlantSharingHandler : InsertEndpoint :=
  ⟨"plantsharings", Kind.PlantSharing,
    [Middleware.setUserID,
      Middleware.checkAccessRight "feedentries" "FeedEntryID" false Kind.FeedEntry],
    []⟩

/-- The create handler of each kind. -/
def createHandler : Kind → InsertEndpoint
  | Kind.User => createUserHandler
  | Kind.UserEnd => createUserEndHandler
  | Kind.Box => createBoxHandler
  | Kind.Plant => createPlantHandler
  | Kind.Timelapse => createTimelapseHandler
  | Kind.Device => createDeviceHandler
  | Kind.Feed => createFeedHandler
  | Kind.FeedEntry => createFeedEntryHandler
  | Kind.FeedMedia => createFeedMediaHandler
  | Kind.PlantSharing => createPlantSharingHandler

/-- The kind an ownership check loads, for a `checkAccessRight` middleware. -/
def Middleware.checked : Middleware → Option Kind
  | Middleware.checkAccessRight _ _ _ factory => some factory
  | _ => none

/-- The parent kind a handler declares: the kind of its ownership check. -/
def InsertEndpoint.parent (h : InsertEndpoint) : Option Kind :=
  h.pre.findSome? Middleware.checked

/-- The parent-kind relation declared by the create handlers. -/
def parentKind (k : Kind) : Option Kind := (createHandler k).parent

/-- Follow parents from a kind until a kind without parent, at most `fuel`
steps; `none` when the fuel runs out. -/
def rootOf : Nat → Kind → Option Kind
  | 0, _ => none
  | fuel + 1, k =>
    match parentKind k with
    | none => some k
    | some p => rootOf fuel p

/-- The ownership-bearing kinds of the data model. -/
def ownershipBearing : List Kind :=
  [Kind.Box, Kind.Plant, Kind.Timelapse, Kind.Device, Kind.Feed, Kind.FeedEntry,
    Kind.FeedMedia, Kind.PlantSharing]

/-- The parent-kind relation as the specification words it: Plant→Box,
Timelapse→Plant, FeedEntry→Feed, FeedMedia→FeedEntry, PlantSharing→FeedEntry,
and no parent for Box, Device and Feed. -/
def specParentKind : Kind → Option Kind
  | Kind.Plant => some Kind.Box
  | Kind.Timelapse => some Kind.Plant
  | Kind.FeedEntry => some Kind.Feed
  | Kind.FeedMedia => some Kind.FeedEntry
  | Kind.PlantSharing => some Kind.FeedEntry
  | _ => none

/-- The mirror collection, foreign-key field and mirror-row type a
`createUserEndObjects` middleware is given. -/
def Middleware.mirror : Middleware → Option (String × String × UserEndType)
  | Middleware.createUserEndObjects collection field factory => some (collection, field, factory)
  | _ => none

/-- What a handler passes to `createUserEndObjects`, if it has that post-action. -/
def InsertEndpoint.mirror (h : InsertEndpoint) : Option (String × String × UserEndType) :=
  h.post.findSome? Middleware.mirror

/-! ## public.go -/

/-- A number error of strconv (`*strconv.NumError`), as its message; the input
is quoted as `strconv.Quote` quotes a text without characters to escape. -/
def numError (fn input reason : String) : String :=
  "strconv." ++ fn ++ ": parsing \"" ++ input ++ "\": " ++ reason

/-- Value of a run of decimal digits, `none` at the first other character. -/
def parseDigits : List Char → Nat → Option Nat
  | [], acc => some acc
  | c :: cs, acc => if c.isDigit then parseDigits cs (acc * 10 + (c.toNat - 48)) else none

/-- Decimal text to `int` (`strconv.Atoi`, 64-bit): an optional sign, then at
least one digit, and a value that fits. -/
def Atoi (s : String) : Except String Int :=
  let digits :=
    match s.toList with
    | '+' :: cs => cs
    | '-' :: cs => cs
    | cs => cs
  let neg := s.toList.head? == some '-'
  if digits.isEmpty then Except.error (numError "Atoi" s "invalid syntax")
  else
    match parseDigits digits 0 with
    | none => Except.error (numError "Atoi" s "invalid syntax")
    | some n =>
      let v : Int := if neg then -(n : Int) else (n : Int)
      if v < -(2 : Int) ^ 63 ∨ (2 : Int) ^ 63 - 1 < v then
        Except.error (numError "Atoi" s "value out of range")
      else Except.ok v

/-- First value of a query parameter, empty when absent (`r.URL.Query().Get`). -/
def queryGet (query : List (String × String)) (key : String) : String :=
  (query.lookup key).getD ""

/-- The queries public.go runs. -/
inductive Query
  | publicPlants (offset : Int) (limit : Int)
  | latestFeedMedia (plant : UUID)
  | publicFeedEntries (id : String) (offset : Int) (limit : Int)
deriving DecidableEq, Repr

/-- The collaborators of the public listings, as the answers they give: the
two listing queries by offset and limit, the latest feed media of a plant,
`loadFeedMediaPublicURLs` (a function of this package, not among the sources),
and the error, if any, of writing the JSON reply. -/
structure PublicEnv where
  selectPublicPlants : Int → Int → Except String (List Plant)
  selectLatestFeedMedia : UUID → Except String FeedMedia
  loadFeedMediaPublicURLs : FeedMedia → Except String FeedMedia
  selectPublicFeedEntries : String → Int → Int → Except String (List FeedEntry)
  encodeError : Option String

/-- What a public handler has done so far: the response and the queries run. -/
structure PubState where
  w : ResponseWriter
  queries : List Query
deriving DecidableEq, Repr

/-- How a handler call ends: it returns, or it panics (here always the call of
`Error()` on a nil `error`). -/
inductive Outcome
  | returned (s : PubState)
  | panicked (s : PubState)
deriving DecidableEq, Repr

/-- Note a query as run. -/
def PubState.ran (s : PubState) (q : Query) : PubState := { s with queries := s.queries ++ [q] }

/-- Reply with an internal error and return. -/
def PubState.fail (s : PubState) (err : String) : PubState :=
  { s with w := httpError s.w err StatusInternalServerError }

/-- Write a JSON value (`json.NewEncoder(w).Encode(v)`), replying with an
internal error when the encoder reports one. -/
def PubState.encode (env : PublicEnv) (s : PubState) (v : Written) : PubState :=
  match env.encodeError with
  | some err => s.fail err
  | none => { s with w := s.w.Write v }

/-- The loop of `fetchPublicPlants` over the plants of the page: look up the
latest feed media of each plant, load its public URLs, append one result. The
result is built by position, `publicPlantResult{id, name, fm.FilePath,
fm.ThumbnailPath}`, as in the source. `none` when the loop replied with an
error and returned. -/
def collectPublicPlants (env : PublicEnv) :
    List Plant → List publicPlantResult → PubState → PubState × Option (List publicPlantResult)
  | [], results, s => (s, some results)
  | p :: plants, results, s =>
    let s := s.ran (Query.latestFeedMedia p.ID)
    match env.selectLatestFeedMedia p.ID with
    | Except.error err => (s.fail err, none)
    | Except.ok fm =>
      match env.loadFeedMediaPublicURLs fm with
      | Except.error err => (s.fail err, none)
      | Except.ok fm =>
        collectPublicPlants env plants
          (results ++ [⟨p.ID.String, p.Name, fm.FilePath, fm.ThumbnailPath⟩]) s

/-- The handler `fetchPublicPlants`, on the query parameters of the request. In
the guard on `limit` the source calls `err.Error()` also when `err` is nil
(limit 0 or above 50): that call panics. -/
def fetchPublicPlants (env : PublicEnv) (query : List (String × String)) (s : PubState) :
    Outcome :=
  match Atoi (queryGet query "offset") with
  | Except.error err => Outcome.returned (s.fail err)
  | Except.ok offset =>
    match Atoi (queryGet query "limit") with
    | Except.error err => Outcome.returned (s.fail err)
    | Except.ok limit =>
      if limit == 0 || limit > 50 then Outcome.panicked s
      else
        let s := s.ran (Query.publicPlants offset limit)
        match env.selectPublicPlants offset limit with
        | Except.error err => Outcome.returned (s.fail err)
        | Except.ok plants =>
          match collectPublicPlants env plants [] s with
          | (s, none) => Outcome.returned s
          | (s, some results) =>
            Outcome.returned (s.encode env (Written.publicPlantsResult results))

/-- The handler `fetchPublicFeedEntries`, on the query parameters and the route
parameter `id`; the same guard on `limit` as `fetchPublicPlants`. -/
def fetchPublicFeedEntries (env : PublicEnv) (query : List (String × String)) (id : String)
    (s : PubState) : Outcome :=
  match Atoi (queryGet query "offset") with
  | Except.error err => Outcome.returned (s.fail err)
  | Except.ok offset =>
    match Atoi (queryGet query "limit") with
    | Except.error err => Outcome.returned (s.fail err)
    | Except.ok limit =>
      if limit == 0 || limit > 50 then Outcome.panicked s
      else
        let s := s.ran (Query.publicFeedEntries id offset limit)
        match env.selectPublicFeedEntries id offset limit with
        | Except.error err => Outcome.returned (s.fail err)
        | Except.ok feedEntries =>
          Outcome.returned (s.encode env (Written.publicFeedEntriesResult feedEntries))

/-! ## The snapshot as the specification words it -/

/-- The rows of resource table `c` whose `userid` is `uid`. -/
def ownedRows (objects : List (String × Object)) (c : String) (uid : UUID) : List Object :=
  (objects.filter (fun r => decide (r.1 = c ∧ r.2.UserID = uid))).map Prod.snd

/-- One mirror row per row of table `c` owned by `uid`: in `userend_<c>`, for
device `e`, with the identifier of the row as `ObjectID`, and dirty. -/
def mirrorsFor (objects : List (String × Object)) (uid e : UUID) (c : String)
    (t : UserEndType) : List (String × UserEndObject) :=
  (ownedRows objects c uid).map (fun o => ("userend_" ++ c, ⟨t, e, o.ID, true⟩))

/-- The fixed set of collections of the snapshot, each with its mirror-row type. -/
def snapshotCollections : List (String × UserEndType) :=
  [("boxes", UserEndType.UserEndBox), ("plants", UserEndType.UserEndPlant),
    ("timelapses", UserEndType.UserEndTimelapse), ("devices", UserEndType.UserEndDevice),
    ("feeds", UserEndType.UserEndFeed), ("feedentries", UserEndType.UserEndFeedEntry),
    ("feedmedias", UserEndType.UserEndFeedMedia)]

/-- The mirror rows `Snapshot(userID, newUserEndID)` has to add: for each
collection of the fixed set, one per row of the user. -/
def specSnapshot (objects : List (String × Object)) (uid e : UUID) :
    List (String × UserEndObject) :=
  snapshotCollections.foldr (fun ct acc => mirrorsFor objects uid e ct.1 ct.2 ++ acc) []

/-- The number `N` of resources a user owns across the collections of the snapshot. -/
def ownedCount (objects : List (String × Object)) (uid : UUID) : Nat :=
  (snapshotCollections.map (fun ct => (ownedRows objects ct.1 uid).length)).sum

/-- The store of `s2` holds everything the store of `s1` holds: users, UserEnd
rows and resource rows are the same, mirror rows are only added at the end. -/
def Sess.keeps (s1 s2 : Sess) : Prop :=
  s2.store.users = s1.store.users ∧ s2.store.userends = s1.store.userends ∧
    s2.store.objects = s1.store.objects ∧ ∃ added, s2.store.mirrors = s1.store.mirrors ++ added

/-- Follow the declared parent `n` times; `none` once a kind without parent is passed. -/
def ancestor : Nat → Kind → Option Kind
  | 0, k => some k
  | n + 1, k =>
    match parentKind k with
    | none => none
    | some p => ancestor n p

/-- Distance of a kind from the root of its ownership chain. -/
def depth : Kind → Nat
  | Kind.Timelapse => 3
  | Kind.Plant => 2
  | Kind.FeedMedia => 2
  | Kind.PlantSharing => 2
  | Kind.Box => 1
  | Kind.FeedEntry => 1
  | _ => 0

/-- The kinds whose create handler fans out mirror rows, in the order of the
collections of the snapshot. -/
def fanoutEligible : List Kind :=
  [Kind.Box, Kind.Plant, Kind.Timelapse, Kind.Device, Kind.Feed, Kind.FeedEntry, Kind.FeedMedia]

/-- The foreign-key field that names a kind itself. -/
def ownField : Kind → String
  | Kind.User => "UserID"
  | Kind.UserEnd => "UserEndID"
  | Kind.Box => "BoxID"
  | Kind.Plant => "PlantID"
  | Kind.Timelapse => "TimelapseID"
  | Kind.Device => "DeviceID"
  | Kind.Feed => "FeedID"
  | Kind.FeedEntry => "FeedEntryID"
  | Kind.FeedMedia => "FeedMediaID"
  | Kind.PlantSharing => "PlantSharingID"

/-- The mirror of a kind itself: collection `userend_` followed by the
collection of the kind, the field naming the kind, and the mirror-row type the
enrollment snapshot fills for that collection. -/
def ownMirror (k : Kind) : Option (String × String × UserEndType) :=
  (snapshotCollections.lookup (createHandler k).collection).map
    (fun t => ("userend_" ++ (createHandler k).collection, ownField k, t))

/-! ## The snapshot under faults -/

/-- The operations of one block of the snapshot, issued when `i` operations are
in the log: the query on table `c`, then, when that query does not fail, one
insert in `userend_<c>` for each row of the user, whether or not earlier
inserts fail. -/
def queryOps (faults : List (Nat × String)) (objects : List (String × Object))
    (uid e : UUID) (c : String) (t : UserEndType) (i : Nat) : List DBOp :=
  DBOp.selectAll c uid ::
    (if (faults.lookup i).isSome then [] else ownedRows objects c uid).map
      (fun o => DBOp.insert ("userend_" ++ c) ⟨t, e, o.ID, true⟩)

/-- The operations of the snapshot over a list of collections, the first one
issued when `i` operations are in the log: the blocks follow one another
whatever failed in the blocks before. -/
def snapshotOps (faults : List (Nat × String)) (objects : List (String × Object))
    (uid e : UUID) : List (String × UserEndType) → Nat → List DBOp
  | [], _ => []
  | ct :: rest, i =>
    queryOps faults objects uid e ct.1 ct.2 i ++
      snapshotOps faults objects uid e rest
        (i + (queryOps faults objects uid e ct.1 ct.2 i).length)

/-- The mirror rows that a run of operations lands, the first one issued when
`i` operations are in the log: the row of every insert that does not fail. -/
def landed (faults : List (Nat × String)) : Nat → List DBOp → List (String × UserEndObject)
  | _, [] => []
  | i, op :: ops =>
    (match op with
     | DBOp.insert c row => if (faults.lookup i).isSome then [] else [(c, row)]
     | _ => []) ++ landed faults (i + 1) ops

/-! ## Concrete inputs -/

/-- A signer that always succeeds: the token text lists method, claims and key. -/
def sampleSigner : Signer :=
  ⟨"secret", fun t key =>
    Except.ok (t.method ++ "." ++ String.intercalate "," (t.claims.map (fun c => c.1 ++ "=" ++ c.2))
      ++ "." ++ key)⟩

/-- A signer that always fails. -/
def brokenSigner : Signer := ⟨"", fun _ _ => Except.error "key is invalid"⟩

/-- A store in which user 1 owns a box and a plant, and user 2 owns a box;
user 1 has just enrolled device 7. -/
def sampleStore : Store :=
  { users := [⟨"alice", "h1"⟩, ⟨"bob", "h2"⟩],
    userends := [⟨⟨7⟩, ⟨1⟩⟩],
    objects := [("boxes", ⟨⟨10⟩, ⟨1⟩⟩), ("plants", ⟨⟨11⟩, ⟨1⟩⟩), ("boxes", ⟨⟨12⟩, ⟨2⟩⟩)],
    mirrors := [] }

/-- An untouched response writer. -/
def freshWriter : ResponseWriter := ⟨[], none, []⟩

/-- A request on the sample store with a database that answers every call. -/
def sampleReq : Req := ⟨⟨sampleStore, [], []⟩, freshWriter⟩

/-- A request on the sample store with a database whose first call fails (the
query on `boxes` of the snapshot). -/
def faultyReq : Req := ⟨⟨sampleStore, [(0, "connection reset")], []⟩, freshWriter⟩

/-- A request of user 1, who owns the boxes 10 and 13, with a database whose
second call fails (the insert of the mirror row of box 10). -/
def faultyInsertReq : Req :=
  ⟨⟨{ users := [], userends := [⟨⟨7⟩, ⟨1⟩⟩],
      objects := [("boxes", ⟨⟨10⟩, ⟨1⟩⟩), ("boxes", ⟨⟨13⟩, ⟨1⟩⟩)], mirrors := [] },
    [(1, "duplicate key")], []⟩, freshWriter⟩

/-- A request creating a user whose nickname is taken. -/
def sampleUserReq : UserReq := ⟨⟨sampleStore, [], []⟩, freshWriter, ⟨"alice", "pw"⟩⟩

/-- A password hasher that always succeeds. -/
def sampleHash (password : String) (cost : Nat) : String × Option String :=
  ("$2a$" ++ toString cost ++ "$" ++ password, none)

/-- Collaborators of the public listings: one public plant whose latest feed
media has file `f.jpg` and thumbnail `t.jpg`, URLs served from a CDN. -/
def samplePublicEnv : PublicEnv :=
  { selectPublicPlants := fun _ _ => Except.ok [⟨⟨1⟩, "basil"⟩],
    selectLatestFeedMedia := fun _ => Except.ok ⟨"f.jpg", "t.jpg"⟩,
    loadFeedMediaPublicURLs := fun fm =>
      Except.ok ⟨"https://cdn/" ++ fm.FilePath, "https://cdn/" ++ fm.ThumbnailPath⟩,
    selectPublicFeedEntries := fun _ _ _ => Except.ok [⟨⟨5⟩⟩],
    encodeError := none }

/-- A public request that has done nothing yet. -/
def freshPub : PubState := ⟨freshWriter, []⟩

/-! ## Lemmas on the session -/

theorem insert_no_fault (s : Sess) (c : String) (row : UserEndObject) (h : s.faults = []) :
    (s.Insert c row).1 =
      { store := { s.store with mirrors := s.store.mirrors ++ [(c, row)] },
        faults := [], log := s.log ++ [DBOp.insert c row] } := by
  simp [Sess.Insert, Sess.fault, Sess.record, h]

theorem selectAll_no_fault (s : Sess) (c : String) (uid : UUID) (h : s.faults = []) :
    s.SelectAll c uid =
      ({ s with log := s.log ++ [DBOp.selectAll c uid] }, ownedRows s.store.objects c uid, none) := by
  have hf : (fun r : String × Object => r.1 == c && r.2.UserID == uid)
      = (fun r => decide (r.1 = c ∧ r.2.UserID = uid)) := by
    funext r
    by_cases h1 : r.1 = c <;> by_cases h2 : r.2.UserID = uid <;> simp [h1, h2]
  simp only [Sess.SelectAll, Sess.fault, Sess.record, h, ownedRows, hf, List.lookup]

theorem fillUserEnd_cons (s : Sess) (t : UserEndType) (ueid : UUID) (c : String) (a : Object)
    (rest : List Object) :
    fillUserEnd s ueid c (a :: rest) (fun _ => UserEndObject.zero t)
      = fillUserEnd (s.Insert ("userend_" ++ c) ⟨t, ueid, a.ID, true⟩).1 ueid c rest
          (fun _ => UserEndObject.zero t) := by
  simp [fillUserEnd, Objects.Each, UserEndObject.zero, UserEndObject.SetUserEndID,
    UserEndObject.SetObjectID, UserEndObject.SetDirty, Object.GetID]

theorem fillUserEnd_no_fault (t : UserEndType) (ueid : UUID) (c : String) (all : List Object) :
    ∀ s : Sess, s.faults = [] →
      (fillUserEnd s ueid c all (fun _ => UserEndObject.zero t)).faults = [] ∧
      (fillUserEnd s ueid c all (fun _ => UserEndObject.zero t)).store.users = s.store.users ∧
      (fillUserEnd s ueid c all (fun _ => UserEndObject.zero t)).store.objects
        = s.store.objects ∧
      (fillUserEnd s ueid c all (fun _ => UserEndObject.zero t)).store.mirrors
        = s.store.mirrors ++ all.map (fun o => ("userend_" ++ c, ⟨t, ueid, o.ID, true⟩)) := by
  induction all with
  | nil => intro s h; simp [fillUserEnd, Objects.Each, h]
  | cons a rest ih =>
    intro s h
    have hi := insert_no_fault s ("userend_" ++ c) ⟨t, ueid, a.ID, true⟩ h
    have hf : (s.Insert ("userend_" ++ c) ⟨t, ueid, a.ID, true⟩).1.faults = [] := by rw [hi]
    obtain ⟨h1, h2, h3, h4⟩ := ih _ hf
    rw [fillUserEnd_cons]
    refine ⟨h1, ?_, ?_, ?_⟩
    · rw [h2, hi]
    · rw [h3, hi]
    · rw [h4, hi]
      simp

/-- One block of the snapshot: select the rows of the user in a table and fill
the mirror collection of that table. -/
theorem snapshot_step (s : Sess) (h : s.faults = []) (id uid : UUID) (c : String)
    (t : UserEndType) (s1 : Sess)
    (hs : s1 = fillUserEnd (s.SelectAll c uid).1 id c (s.SelectAll c uid).2.1
        (fun _ => UserEndObject.zero t)) :
    s1.faults = [] ∧ s1.store.users = s.store.users ∧ s1.store.objects = s.store.objects ∧
    s1.store.mirrors = s.store.mirrors ++ mirrorsFor s.store.objects uid id c t := by
  subst hs
  rw [selectAll_no_fault s c uid h]
  exact fillUserEnd_no_fault t id c _ _ h

theorem enrollSnapshot_no_fault (s : Sess) (h : s.faults = []) (id uid : UUID) :
    (enrollSnapshot s id uid).faults = [] ∧
    (enrollSnapshot s id uid).store.users = s.store.users ∧
    (enrollSnapshot s id uid).store.objects = s.store.objects ∧
    (enrollSnapshot s id uid).store.mirrors
      = s.store.mirrors ++ specSnapshot s.store.objects uid id := by
  unfold enrollSnapshot
  simp only []
  generalize h1 : fillUserEnd (s.SelectAll "boxes" uid).1 id "boxes" _ _ = s1
  generalize h2 : fillUserEnd (s1.SelectAll "plants" uid).1 id "plants" _ _ = s2
  generalize h3 : fillUserEnd (s2.SelectAll "timelapses" uid).1 id "timelapses" _ _ = s3
  generalize h4 : fillUserEnd (s3.SelectAll "devices" uid).1 id "devices" _ _ = s4
  generalize h5 : fillUserEnd (s4.SelectAll "feeds" uid).1 id "feeds" _ _ = s5
  generalize h6 : fillUserEnd (s5.SelectAll "feedentries" uid).1 id "feedentries" _ _ = s6
  generalize h7 : fillUserEnd (s6.SelectAll "feedmedias" uid).1 id "feedmedias" _ _ = s7
  obtain ⟨f1, u1, o1, m1⟩ := snapshot_step s h id uid _ _ s1 h1.symm
  obtain ⟨f2, u2, o2, m2⟩ := snapshot_step s1 f1 id uid _ _ s2 h2.symm
  obtain ⟨f3, u3, o3, m3⟩ := snapshot_step s2 f2 id uid _ _ s3 h3.symm
  obtain ⟨f4, u4, o4, m4⟩ := snapshot_step s3 f3 id uid _ _ s4 h4.symm
  obtain ⟨f5, u5, o5, m5⟩ := snapshot_step s4 f4 id uid _ _ s5 h5.symm
  obtain ⟨f6, u6, o6, m6⟩ := snapshot_step s5 f5 id uid _ _ s6 h6.symm
  obtain ⟨f7, u7, o7, m7⟩ := snapshot_step s6 f6 id uid _ _ s7 h7.symm
  refine ⟨f7, ?_, ?_, ?_⟩
  · rw [u7, u6, u5, u4, u3, u2, u1]
  · rw [o7, o6, o5, o4, o3, o2, o1]
  · rw [m7, m6, m5, m4, m3, m2, m1, o6, o5, o4, o3, o2, o1]
    simp [specSnapshot, snapshotCollections, List.append_assoc]

/-! ## Lemmas on the specification of the snapshot -/

theorem mem_mirrorsFor (objects : List (String × Object)) (uid e : UUID) (c : String)
    (t : UserEndType) (m : String × UserEndObject) :
    m ∈ mirrorsFor objects uid e c t ↔
      ∃ o, (c, o) ∈ objects ∧ o.UserID = uid ∧ m = ("userend_" ++ c, ⟨t, e, o.ID, true⟩) := by
  constructor
  · intro hm
    simp only [mirrorsFor, ownedRows, List.mem_map, List.mem_filter, decide_eq_true_eq] at hm
    obtain ⟨o, ⟨r, ⟨hr, hc, hu⟩, hro⟩, hmo⟩ := hm
    refine ⟨o, ?_, ?_, hmo.symm⟩
    · rw [← hc, ← hro]; exact hr
    · rw [← hro]; exact hu
  · rintro ⟨o, ho, hu, rfl⟩
    simp only [mirrorsFor, ownedRows, List.mem_map, List.mem_filter, decide_eq_true_eq]
    exact ⟨o, ⟨(c, o), ⟨ho, rfl, hu⟩, rfl⟩, rfl⟩

theorem mem_foldr_append {α β : Type} (f : α → List β) (m : β) (l : List α) :
    m ∈ l.foldr (fun a acc => f a ++ acc) [] ↔ ∃ a ∈ l, m ∈ f a := by
  induction l with
  | nil => simp
  | cons a rest ih => simp [ih]

theorem length_foldr_append {α β : Type} (f : α → List β) (l : List α) :
    (l.foldr (fun a acc => f a ++ acc) []).length = (l.map (fun a => (f a).length)).sum := by
  induction l with
  | nil => simp
  | cons a rest ih => simp [ih]

theorem specSnapshot_length (objects : List (String × Object)) (uid e : UUID) :
    (specSnapshot objects uid e).length = ownedCount objects uid := by
  unfold specSnapshot ownedCount
  rw [length_foldr_append]
  simp [mirrorsFor]

theorem createUserEndPost_ok (env : Signer) (id uid : UUID) (fn : Req → Req) (r : Req)
    (tokenString : String)
    (hsign : env.SignedString
      (NewWithClaims "HS256" [("userID", uid.String), ("userEndID", id.String)])
      env.JWTSecret = Except.ok tokenString) :
    createUserEndPost env id uid fn r
      = fn { sess := enrollSnapshot r.sess id uid,
             w := r.w.HeaderSet "x-sgl-token" tokenString } := by
  unfold createUserEndPost
  simp only [hsign]

/-! ## Lemmas on the response writer -/

theorem lookup_filter_ne (k k2 : String) (hne : k ≠ k2) (h : List (String × String)) :
    (h.filter (fun kv => kv.1 != k2)).lookup k = h.lookup k := by
  induction h with
  | nil => rfl
  | cons kv rest ih =>
    obtain ⟨a, b⟩ := kv
    by_cases ha : a = k2
    · subst ha
      have hk : (k == a) = false := by simpa using hne
      simp [List.filter_cons, List.lookup_cons, hk, ih]
    · by_cases hka : k = a
      · subst hka
        simp [List.filter_cons, List.lookup_cons, ha]
      · have hk : (k == a) = false := by simpa using hka
        simp [List.filter_cons, List.lookup_cons, ha, hk, ih]

theorem headerGet_headerSet (w : ResponseWriter) (key value : String) :
    (w.HeaderSet key value).HeaderGet key = some value := by
  simp [ResponseWriter.HeaderSet, ResponseWriter.HeaderGet, List.lookup_cons]

theorem headerGet_headerSet_ne (w : ResponseWriter) (key key2 value : String)
    (hne : CanonicalMIMEHeaderKey key ≠ CanonicalMIMEHeaderKey key2) :
    (w.HeaderSet key2 value).HeaderGet key = w.HeaderGet key := by
  have hk : (CanonicalMIMEHeaderKey key == CanonicalMIMEHeaderKey key2) = false := by
    simpa using hne
  simp only [ResponseWriter.HeaderSet, ResponseWriter.HeaderGet, List.lookup_cons, hk]
  exact lookup_filter_ne _ _ hne _

theorem httpError_status (w : ResponseWriter) (err : String) (code : Nat) :
    (httpError w err code).status = some (w.status.getD code) := by
  cases hs : w.status <;>
    simp [httpError, ResponseWriter.Write, ResponseWriter.WriteHeader, ResponseWriter.HeaderSet, hs]

theorem httpError_body (w : ResponseWriter) (err : String) (code : Nat) :
    (httpError w err code).body = w.body ++ [Written.text (err ++ "\n")] := by
  cases hs : w.status <;>
    simp [httpError, ResponseWriter.Write, ResponseWriter.WriteHeader, ResponseWriter.HeaderSet, hs]

theorem httpError_token (w : ResponseWriter) (err : String) (code : Nat) :
    (httpError w err code).HeaderGet "x-sgl-token" = w.HeaderGet "x-sgl-token" := by
  have h1 : CanonicalMIMEHeaderKey "x-sgl-token" ≠ CanonicalMIMEHeaderKey "Content-Type" := by
    decide
  have h2 : CanonicalMIMEHeaderKey "x-sgl-token"
      ≠ CanonicalMIMEHeaderKey "X-Content-Type-Options" := by
    decide
  have e : (httpError w err code).HeaderGet "x-sgl-token"
      = ((w.HeaderSet "Content-Type" "text/plain; charset=utf-8").HeaderSet
          "X-Content-Type-Options" "nosniff").HeaderGet "x-sgl-token" := by
    cases hs : w.status <;>
      simp [httpError, ResponseWriter.Write, ResponseWriter.WriteHeader,
        ResponseWriter.HeaderSet, ResponseWriter.HeaderGet, hs]
  rw [e, headerGet_headerSet_ne _ _ _ _ h2, headerGet_headerSet_ne _ _ _ _ h1]

/-! ## Lemmas: what the snapshot keeps whatever fails -/

theorem keeps_refl (s : Sess) : s.keeps s := ⟨rfl, rfl, rfl, [], by simp⟩

theorem keeps_trans (s1 s2 s3 : Sess) (h12 : s1.keeps s2) (h23 : s2.keeps s3) : s1.keeps s3 := by
  obtain ⟨u1, e1, o1, a1, m1⟩ := h12
  obtain ⟨u2, e2, o2, a2, m2⟩ := h23
  refine ⟨u2.trans u1, e2.trans e1, o2.trans o1, a1 ++ a2, ?_⟩
  rw [m2, m1, List.append_assoc]

theorem insert_keeps (s : Sess) (c : String) (row : UserEndObject) :
    s.keeps (s.Insert c row).1 := by
  unfold Sess.Insert
  cases s.fault with
  | some err => exact ⟨rfl, rfl, rfl, [], by simp [Sess.record]⟩
  | none => exact ⟨rfl, rfl, rfl, [(c, row)], rfl⟩

theorem selectAll_keeps (s : Sess) (c : String) (uid : UUID) : s.keeps (s.SelectAll c uid).1 := by
  unfold Sess.SelectAll
  cases s.fault with
  | some err => exact ⟨rfl, rfl, rfl, [], by simp [Sess.record]⟩
  | none => exact ⟨rfl, rfl, rfl, [], by simp [Sess.record]⟩

theorem fillUserEnd_keeps (ueid : UUID) (c : String) (factory : Unit → UserEndObject)
    (all : List Object) : ∀ s : Sess, s.keeps (fillUserEnd s ueid c all factory) := by
  induction all with
  | nil => intro s; exact keeps_refl s
  | cons a rest ih =>
    intro s
    have e : fillUserEnd s ueid c (a :: rest) factory
        = fillUserEnd (s.Insert ("userend_" ++ c)
            (((factory ()).SetUserEndID ueid).SetObjectID a.GetID |>.SetDirty true)).1
            ueid c rest factory := by
      simp [fillUserEnd, Objects.Each]
    rw [e]
    exact keeps_trans _ _ _ (insert_keeps _ _ _) (ih _)

theorem snapshot_step_keeps (s : Sess) (id uid : UUID) (c : String)
    (factory : Unit → UserEndObject) :
    s.keeps (fillUserEnd (s.SelectAll c uid).1 id c (s.SelectAll c uid).2.1 factory) :=
  keeps_trans _ _ _ (selectAll_keeps s c uid) (fillUserEnd_keeps id c factory _ _)

theorem enrollSnapshot_keeps (s : Sess) (id uid : UUID) : s.keeps (enrollSnapshot s id uid) := by
  unfold enrollSnapshot
  simp only []
  exact keeps_trans _ _ _ (snapshot_step_keeps s id uid "boxes" _)
    (keeps_trans _ _ _ (snapshot_step_keeps _ id uid "plants" _)
    (keeps_trans _ _ _ (snapshot_step_keeps _ id uid "timelapses" _)
    (keeps_trans _ _ _ (snapshot_step_keeps _ id uid "devices" _)
    (keeps_trans _ _ _ (snapshot_step_keeps _ id uid "feeds" _)
    (keeps_trans _ _ _ (snapshot_step_keeps _ id uid "feedentries" _)
      (snapshot_step_keeps _ id uid "feedmedias" _))))))

/-! ## Lemmas: the snapshot under faults -/

theorem landed_append (faults : List (Nat × String)) (a b : List DBOp) :
    ∀ i, landed faults i (a ++ b) = landed faults i a ++ landed faults (i + a.length) b := by
  induction a with
  | nil => intro i; simp [landed]
  | cons op rest ih =>
    intro i
    have hi : i + 1 + rest.length = i + (rest.length + 1) := by omega
    rw [List.cons_append]
    simp only [landed]
    rw [ih (i + 1), List.length_cons, List.append_assoc, hi]

theorem landed_cons (faults : List (Nat × String)) (op : DBOp) (ops : List DBOp) (i : Nat) :
    landed faults i (op :: ops) = landed faults i [op] ++ landed faults (i + 1) ops := by
  simp [landed]

theorem insert_faults (s : Sess) (c : String) (row : UserEndObject) :
    (s.Insert c row).1.faults = s.faults ∧
    (s.Insert c row).1.log = s.log ++ [DBOp.insert c row] ∧
    (s.Insert c row).1.store.objects = s.store.objects ∧
    (s.Insert c row).1.store.mirrors
      = s.store.mirrors ++ landed s.faults s.log.length [DBOp.insert c row] := by
  unfold Sess.Insert Sess.fault
  cases h : s.faults.lookup s.log.length <;> simp [landed, Sess.record, h]

theorem selectAll_faults (s : Sess) (c : String) (uid : UUID) :
    (s.SelectAll c uid).1.faults = s.faults ∧
    (s.SelectAll c uid).1.log = s.log ++ [DBOp.selectAll c uid] ∧
    (s.SelectAll c uid).1.store = s.store ∧
    (s.SelectAll c uid).2.1
      = if (s.faults.lookup s.log.length).isSome then [] else ownedRows s.store.objects c uid := by
  have hf : (fun r : String × Object => r.1 == c && r.2.UserID == uid)
      = (fun r => decide (r.1 = c ∧ r.2.UserID = uid)) := by
    funext r
    by_cases h1 : r.1 = c <;> by_cases h2 : r.2.UserID = uid <;> simp [h1, h2]
  unfold Sess.SelectAll Sess.fault
  cases h : s.faults.lookup s.log.length <;> simp [Sess.record, h, ownedRows, hf]

theorem fillUserEnd_faults (t : UserEndType) (ueid : UUID) (c : String) (all : List Object) :
    ∀ s : Sess,
      (fillUserEnd s ueid c all (fun _ => UserEndObject.zero t)).faults = s.faults ∧
      (fillUserEnd s ueid c all (fun _ => UserEndObject.zero t)).log
        = s.log ++ all.map (fun o => DBOp.insert ("userend_" ++ c) ⟨t, ueid, o.ID, true⟩) ∧
      (fillUserEnd s ueid c all (fun _ => UserEndObject.zero t)).store.objects
        = s.store.objects ∧
      (fillUserEnd s ueid c all (fun _ => UserEndObject.zero t)).store.mirrors
        = s.store.mirrors ++ landed s.faults s.log.length
            (all.map (fun o => DBOp.insert ("userend_" ++ c) ⟨t, ueid, o.ID, true⟩)) := by
  induction all with
  | nil => intro s; simp [fillUserEnd, Objects.Each, landed]
  | cons a rest ih =>
    intro s
    obtain ⟨f1, l1, o1, m1⟩ := insert_faults s ("userend_" ++ c) ⟨t, ueid, a.ID, true⟩
    obtain ⟨f2, l2, o2, m2⟩ := ih (s.Insert ("userend_" ++ c) ⟨t, ueid, a.ID, true⟩).1
    rw [fillUserEnd_cons]
    refine ⟨f2.trans f1, ?_, o2.trans o1, ?_⟩
    · rw [l2, l1]; simp
    · conv_rhs => rw [List.map_cons, landed_cons]
      rw [m2, m1, f1, l1, List.length_append, List.append_assoc]
      rfl

theorem snapshot_step_faults (s : Sess) (id uid : UUID) (c : String) (t : UserEndType) :
    (fillUserEnd (s.SelectAll c uid).1 id c (s.SelectAll c uid).2.1
        (fun _ => UserEndObject.zero t)).faults = s.faults ∧
    (fillUserEnd (s.SelectAll c uid).1 id c (s.SelectAll c uid).2.1
        (fun _ => UserEndObject.zero t)).log
      = s.log ++ queryOps s.faults s.store.objects uid id c t s.log.length ∧
    (fillUserEnd (s.SelectAll c uid).1 id c (s.SelectAll c uid).2.1
        (fun _ => UserEndObject.zero t)).store.objects = s.store.objects ∧
    (fillUserEnd (s.SelectAll c uid).1 id c (s.SelectAll c uid).2.1
        (fun _ => UserEndObject.zero t)).store.mirrors
      = s.store.mirrors
          ++ landed s.faults s.log.length
              (queryOps s.faults s.store.objects uid id c t s.log.length) := by
  obtain ⟨f1, l1, st1, r1⟩ := selectAll_faults s c uid
  obtain ⟨f2, l2, o2, m2⟩ := fillUserEnd_faults t id c (s.SelectAll c uid).2.1 (s.SelectAll c uid).1
  refine ⟨f2.trans f1, ?_, ?_, ?_⟩
  · rw [l2, l1, r1]; simp [queryOps]
  · rw [o2, st1]
  · rw [m2, st1, f1, l1, r1]
    simp [queryOps, landed]

theorem foldl_snapshot_faults (id uid : UUID) (l : List (String × UserEndType)) :
    ∀ s : Sess,
      (l.foldl (fun s ct => fillUserEnd (s.SelectAll ct.1 uid).1 id ct.1
          (s.SelectAll ct.1 uid).2.1 (fun _ => UserEndObject.zero ct.2)) s).faults = s.faults ∧
      (l.foldl (fun s ct => fillUserEnd (s.SelectAll ct.1 uid).1 id ct.1
          (s.SelectAll ct.1 uid).2.1 (fun _ => UserEndObject.zero ct.2)) s).log
        = s.log ++ snapshotOps s.faults s.store.objects uid id l s.log.length ∧
      (l.foldl (fun s ct => fillUserEnd (s.SelectAll ct.1 uid).1 id ct.1
          (s.SelectAll ct.1 uid).2.1 (fun _ => UserEndObject.zero ct.2)) s).store.objects
        = s.store.objects ∧
      (l.foldl (fun s ct => fillUserEnd (s.SelectAll ct.1 uid).1 id ct.1
          (s.SelectAll ct.1 uid).2.1 (fun _ => UserEndObject.zero ct.2)) s).store.mirrors
        = s.store.mirrors
            ++ landed s.faults s.log.length
                (snapshotOps s.faults s.store.objects uid id l s.log.length) := by
  induction l with
  | nil => intro s; simp [snapshotOps, landed]
  | cons ct rest ih =>
    intro s
    obtain ⟨f1, l1, o1, m1⟩ := snapshot_step_faults s id uid ct.1 ct.2
    obtain ⟨f2, l2, o2, m2⟩ := ih (fillUserEnd (s.SelectAll ct.1 uid).1 id ct.1
      (s.SelectAll ct.1 uid).2.1 (fun _ => UserEndObject.zero ct.2))
    rw [List.foldl_cons]
    refine ⟨f2.trans f1, ?_, o2.trans o1, ?_⟩
    · rw [l2, f1, o1, l1, List.length_append, List.append_assoc]
      rfl
    · rw [m2, f1, o1, m1, l1, List.length_append, List.append_assoc]
      simp only [snapshotOps]
      rw [landed_append]

theorem enrollSnapshot_foldl (s : Sess) (id uid : UUID) :
    enrollSnapshot s id uid
      = snapshotCollections.foldl (fun s ct => fillUserEnd (s.SelectAll ct.1 uid).1 id ct.1
          (s.SelectAll ct.1 uid).2.1 (fun _ => UserEndObject.zero ct.2)) s := by
  unfold enrollSnapshot snapshotCollections
  simp only [List.foldl_cons, List.foldl_nil]

theorem enrollSnapshot_faults (s : Sess) (id uid : UUID) :
    (enrollSnapshot s id uid).faults = s.faults ∧
    (enrollSnapshot s id uid).log
      = s.log ++ snapshotOps s.faults s.store.objects uid id snapshotCollections s.log.length ∧
    (enrollSnapshot s id uid).store.objects = s.store.objects ∧
    (enrollSnapshot s id uid).store.mirrors
      = s.store.mirrors
          ++ landed s.faults s.log.length
              (snapshotOps s.faults s.store.objects uid id snapshotCollections s.log.length) := by
  rw [enrollSnapshot_foldl]
  exact foldl_snapshot_faults id uid snapshotCollections s

theorem selectAll_mem_snapshotOps (faults : List (Nat × String))
    (objects : List (String × Object)) (uid e : UUID) (l : List (String × UserEndType)) :
    ∀ i, ∀ ct ∈ l, DBOp.selectAll ct.1 uid ∈ snapshotOps faults objects uid e l i := by
  induction l with
  | nil => intro i ct h; cases h
  | cons a rest ih =>
    intro i ct h
    simp only [snapshotOps, List.mem_append]
    rcases List.mem_cons.mp h with h1 | h1
    · left; rw [h1]; simp [queryOps]
    · right; exact ih _ ct h1

theorem queryOps_infix_snapshotOps (faults : List (Nat × String))
    (objects : List (String × Object)) (uid e : UUID) (l : List (String × UserEndType)) :
    ∀ i, ∀ ct ∈ l, ∃ j,
      List.IsInfix (queryOps faults objects uid e ct.1 ct.2 j)
        (snapshotOps faults objects uid e l i) := by
  induction l with
  | nil => intro i ct h; cases h
  | cons a rest ih =>
    intro i ct h
    rcases List.mem_cons.mp h with h1 | h1
    · exact ⟨i, [], snapshotOps faults objects uid e rest
        (i + (queryOps faults objects uid e a.1 a.2 i).length), by rw [h1]; simp [snapshotOps]⟩
    · obtain ⟨j, pre, post, hj⟩ := ih (i + (queryOps faults objects uid e a.1 a.2 i).length) ct h1
      exact ⟨j, queryOps faults objects uid e a.1 a.2 i ++ pre, post, by
        simp only [snapshotOps, ← hj, List.append_assoc]⟩

/-! ## Lemmas on the ownership graph -/

theorem parent_depth (k p : Kind) (h : parentKind k = some p) : depth p + 1 = depth k := by
  cases k <;> cases p <;> first | rfl | (exact absurd h (by decide))

theorem ancestor_depth : ∀ (n : Nat) (k a : Kind), ancestor n k = some a → depth a + n = depth k
  | 0, k, a, h => by
    simp only [ancestor, Option.some.injEq] at h
    rw [h]; rfl
  | n + 1, k, a, h => by
    unfold ancestor at h
    cases hp : parentKind k with
    | none => rw [hp] at h; cases h
    | some p =>
      rw [hp] at h
      have h1 := ancestor_depth n p a h
      have h2 := parent_depth k p hp
      omega

/-! ## Claims -/

/-- C1. Device-enrollment snapshot. When the device token is signed and every
database call succeeds, the UserEnd post-action hands the next handler a store
whose mirror rows are the earlier ones followed by exactly one row per
pre-existing row with `userid = uid` in each of boxes, plants, timelapses,
devices, feeds, feedentries and feedmedias: `N` rows for the `N` such
resources, each in `userend_<collection>` with `UserEndID = id`, `ObjectID`
the identifier of a resource of `uid` in that collection, and `Dirty = true`.
Every added row comes from a row owned by `uid`; users, UserEnd rows and
resources are left as they were. -/
theorem createUserEnd_snapshot (env : Signer) (id uid : UUID) (fn : Req → Req) (r : Req)
    (tokenString : String)
    (hsign : env.SignedString
      (NewWithClaims "HS256" [("userID", uid.String), ("userEndID", id.String)])
      env.JWTSecret = Except.ok tokenString)
    (hdb : r.sess.faults = []) :
    createUserEndPost env id uid fn r = fn (createUserEndPost env id uid (fun x => x) r) ∧
    (createUserEndPost env id uid (fun x => x) r).sess.store.mirrors
      = r.sess.store.mirrors ++ specSnapshot r.sess.store.objects uid id ∧
    (createUserEndPost env id uid (fun x => x) r).sess.store.objects = r.sess.store.objects ∧
    (createUserEndPost env id uid (fun x => x) r).sess.store.users = r.sess.store.users ∧
    (specSnapshot r.sess.store.objects uid id).length = ownedCount r.sess.store.objects uid ∧
    ∀ m ∈ specSnapshot r.sess.store.objects uid id,
      m.2.UserEndID = id ∧ m.2.Dirty = true ∧
      ∃ ct ∈ snapshotCollections, ∃ o, (ct.1, o) ∈ r.sess.store.objects ∧ o.UserID = uid ∧
        m.1 = "userend_" ++ ct.1 ∧ m.2.kind = ct.2 ∧ m.2.ObjectID = o.ID := by
  obtain ⟨_, hu, ho, hm⟩ := enrollSnapshot_no_fault r.sess hdb id uid
  rw [createUserEndPost_ok env id uid fn r tokenString hsign,
    createUserEndPost_ok env id uid (fun x => x) r tokenString hsign]
  refine ⟨?_, ?_, ?_, ?_, specSnapshot_length _ _ _, ?_⟩
  · simp only []
  · simp only []; exact hm
  · simp only []; exact ho
  · simp only []; exact hu
  intro m hmem
  unfold specSnapshot at hmem
  rw [mem_foldr_append] at hmem
  obtain ⟨ct, hct, hin⟩ := hmem
  rw [mem_mirrorsFor] at hin
  obtain ⟨o, ho1, ho2, rfl⟩ := hin
  exact ⟨rfl, rfl, ct, hct, o, ho1, ho2, rfl, rfl, rfl⟩

/-- Witness of C1 on the sample store: enrolling device 7 of user 1 adds the
two mirror rows of the box and the plant of user 1, none for the box of user 2. -/
theorem createUserEnd_snapshot_witness :
    (createUserEndPost sampleSigner ⟨7⟩ ⟨1⟩ (fun x => x) sampleReq).sess.store.mirrors
      = sampleReq.sess.store.mirrors ++ specSnapshot sampleReq.sess.store.objects ⟨1⟩ ⟨7⟩ ∧
    specSnapshot sampleReq.sess.store.objects ⟨1⟩ ⟨7⟩
      = [("userend_boxes", ⟨UserEndType.UserEndBox, ⟨7⟩, ⟨10⟩, true⟩),
         ("userend_plants", ⟨UserEndType.UserEndPlant, ⟨7⟩, ⟨11⟩, true⟩)] :=
  ⟨(createUserEnd_snapshot sampleSigner ⟨7⟩ ⟨1⟩ (fun x => x) sampleReq _ rfl rfl).2.1, by decide⟩

/-- C6. Snapshot non-idempotence. With every database call succeeding, a
second run of the enrollment snapshot for the same user and device finds the
resource collections as the first run found them and inserts every mirror row
of the first run once more: two runs add twice as many mirror rows as one. -/
theorem enrollSnapshot_twice (s : Sess) (id uid : UUID) (hdb : s.faults = []) :
    (enrollSnapshot s id uid).store.objects = s.store.objects ∧
    (enrollSnapshot s id uid).store.mirrors
      = s.store.mirrors ++ specSnapshot s.store.objects uid id ∧
    (enrollSnapshot (enrollSnapshot s id uid) id uid).store.mirrors
      = s.store.mirrors ++ specSnapshot s.store.objects uid id
          ++ specSnapshot s.store.objects uid id ∧
    (enrollSnapshot (enrollSnapshot s id uid) id uid).store.mirrors.length
        - s.store.mirrors.length
      = 2 * ((enrollSnapshot s id uid).store.mirrors.length - s.store.mirrors.length) := by
  obtain ⟨f1, _, o1, m1⟩ := enrollSnapshot_no_fault s hdb id uid
  obtain ⟨_, _, _, m2⟩ := enrollSnapshot_no_fault (enrollSnapshot s id uid) f1 id uid
  rw [o1, m1] at m2
  refine ⟨o1, m1, m2, ?_⟩
  rw [m2, m1]
  simp only [List.length_append]
  omega

/-- Witness of C6 on the sample store: one run adds two mirror rows, two runs four. -/
theorem enrollSnapshot_twice_witness :
    (enrollSnapshot (enrollSnapshot sampleReq.sess ⟨7⟩ ⟨1⟩) ⟨7⟩ ⟨1⟩).store.mirrors.length
        - sampleReq.sess.store.mirrors.length
      = 2 * ((enrollSnapshot sampleReq.sess ⟨7⟩ ⟨1⟩).store.mirrors.length
          - sampleReq.sess.store.mirrors.length) ∧
    (enrollSnapshot sampleReq.sess ⟨7⟩ ⟨1⟩).store.mirrors.length = 2 :=
  ⟨(enrollSnapshot_twice sampleReq.sess ⟨7⟩ ⟨1⟩ rfl).2.2.2, by decide⟩

/-- C2. Device credential. The UserEnd post-action signs the token whose claims
are exactly `userID`, the acting user as a string, and `userEndID`, the
inserted UserEnd identifier as a string (two claims, none named `exp`), with
the configured secret. When signing gives `tokenString`, the next handler is
called on a response whose header `x-sgl-token` is `tokenString`, with status
and body still as they were. -/
theorem createUserEnd_credential (env : Signer) (id uid : UUID) (fn : Req → Req) (r : Req)
    (tokenString : String)
    (hsign : env.SignedString
      ⟨"HS256", [("userID", uid.String), ("userEndID", id.String)]⟩ env.JWTSecret
        = Except.ok tokenString) :
    createUserEndPost env id uid fn r = fn (createUserEndPost env id uid (fun x => x) r) ∧
    (createUserEndPost env id uid (fun x => x) r).w.HeaderGet "x-sgl-token"
      = some tokenString ∧
    (createUserEndPost env id uid (fun x => x) r).w.status = r.w.status ∧
    (createUserEndPost env id uid (fun x => x) r).w.body = r.w.body ∧
    (NewWithClaims "HS256" [("userID", uid.String), ("userEndID", id.String)]).claims.length = 2 ∧
    (NewWithClaims "HS256" [("userID", uid.String), ("userEndID", id.String)]).claims.lookup "exp"
      = none := by
  rw [createUserEndPost_ok env id uid fn r tokenString hsign,
    createUserEndPost_ok env id uid (fun x => x) r tokenString hsign]
  refine ⟨?_, ?_, ?_, ?_, ?_, ?_⟩
  · simp only []
  · exact headerGet_headerSet _ _ _
  · rfl
  · rfl
  · rfl
  · rfl

/-- Witness of C2: user 1 enrolling device 7 on the sample store gets the
signed token of claims `userID` and `userEndID` in header `x-sgl-token`. -/
theorem createUserEnd_credential_witness :
    (createUserEndPost sampleSigner ⟨7⟩ ⟨1⟩ (fun x => x) sampleReq).w.HeaderGet "x-sgl-token"
      = some ("HS256.userID=00000000-0000-0000-0000-000000000001,"
          ++ "userEndID=00000000-0000-0000-0000-000000000007.secret") :=
  (createUserEnd_credential sampleSigner ⟨7⟩ ⟨1⟩ (fun x => x) sampleReq _ (by rfl)).2.1

/-- C7. Signing failure aborts the enrollment post-action. When signing the
device token fails with `err`, the post-action replies with
`http.Error(w, err, 500)` and returns: the result does not depend on the next
handler `fn` (it is not called), the session is as before (no operation is
added to its log: no snapshot query, no insert; the store is the same), and
header `x-sgl-token` is as before. -/
theorem createUserEnd_sign_failure (env : Signer) (id uid : UUID) (fn : Req → Req) (r : Req)
    (err : String)
    (hsign : env.SignedString
      ⟨"HS256", [("userID", uid.String), ("userEndID", id.String)]⟩ env.JWTSecret
        = Except.error err) :
    createUserEndPost env id uid fn r
      = { sess := r.sess, w := httpError r.w err StatusInternalServerError } ∧
    (createUserEndPost env id uid fn r).w.status = some (r.w.status.getD 500) ∧
    (createUserEndPost env id uid fn r).w.body = r.w.body ++ [Written.text (err ++ "\n")] ∧
    (createUserEndPost env id uid fn r).w.HeaderGet "x-sgl-token"
      = r.w.HeaderGet "x-sgl-token" ∧
    (createUserEndPost env id uid fn r).sess.log = r.sess.log ∧
    (createUserEndPost env id uid fn r).sess.store = r.sess.store := by
  have e : createUserEndPost env id uid fn r
      = { sess := r.sess, w := httpError r.w err StatusInternalServerError } := by
    unfold createUserEndPost NewWithClaims
    simp only [hsign]
  rw [e]
  exact ⟨rfl, httpError_status _ _ _, httpError_body _ _ _, httpError_token _ _ _, rfl, rfl⟩

/-- Witness of C7: with the failing signer the reply is status 500, no token
header, and no database operation. -/
theorem createUserEnd_sign_failure_witness :
    (createUserEndPost brokenSigner ⟨7⟩ ⟨1⟩ (fun x => x) sampleReq).w.status = some 500 ∧
    (createUserEndPost brokenSigner ⟨7⟩ ⟨1⟩ (fun x => x) sampleReq).w.HeaderGet "x-sgl-token"
      = none ∧
    (createUserEndPost brokenSigner ⟨7⟩ ⟨1⟩ (fun x => x) sampleReq).sess.log = [] :=
  ⟨(createUserEnd_sign_failure brokenSigner ⟨7⟩ ⟨1⟩ (fun x => x) sampleReq "key is invalid"
      rfl).2.1,
    (createUserEnd_sign_failure brokenSigner ⟨7⟩ ⟨1⟩ (fun x => x) sampleReq "key is invalid"
      rfl).2.2.2.1,
    (createUserEnd_sign_failure brokenSigner ⟨7⟩ ⟨1⟩ (fun x => x) sampleReq "key is invalid"
      rfl).2.2.2.2.1⟩

/-- C3. User uniqueness pre-check. When the count query succeeds and the number
of `users` rows whose nickname equals the nickname of the body is not zero, the
pre-check of createUser replies with `http.Error(w, "User already exists",
400)` and returns: the result does not depend on the next stage `fn` (it is not
called), the store and the decoded user are as before, and the only database
operation is the count. -/
theorem createUser_conflict (hash : String → Nat → String × Option String)
    (fn : UserReq → UserReq) (r : UserReq) (hq : r.sess.fault = none)
    (hn : (r.sess.store.users.filter (fun u => decide (u.Nickname = r.u.Nickname))).length ≠ 0) :
    createUserCheck hash fn r
      = { sess := r.sess.record (DBOp.count "users" r.u.Nickname),
          w := httpError r.w "User already exists" StatusBadRequest,
          u := r.u } ∧
    (createUserCheck hash fn r).sess.store = r.sess.store ∧
    (createUserCheck hash fn r).sess.log = r.sess.log ++ [DBOp.count "users" r.u.Nickname] ∧
    (createUserCheck hash fn r).w.status = some (r.w.status.getD 400) ∧
    (createUserCheck hash fn r).w.body = r.w.body ++ [Written.text "User already exists\n"] := by
  have hf : (fun u : User => u.Nickname == r.u.Nickname)
      = (fun u => decide (u.Nickname = r.u.Nickname)) := by
    funext u
    by_cases h : u.Nickname = r.u.Nickname <;> simp [h]
  have e : createUserCheck hash fn r
      = { sess := r.sess.record (DBOp.count "users" r.u.Nickname),
          w := httpError r.w "User already exists" StatusBadRequest,
          u := r.u } := by
    unfold createUserCheck Sess.Count
    simp only [hq, hf]
    rw [if_pos (Nat.pos_of_ne_zero hn)]
  rw [e]
  exact ⟨rfl, rfl, rfl, httpError_status _ _ _, httpError_body _ _ _⟩

/-- Witness of C3: nickname `alice` is taken in the sample store; the reply is
status 400 and the store is untouched. -/
theorem createUser_conflict_witness :
    (createUserCheck sampleHash (fun x => x) sampleUserReq).w.status = some 400 ∧
    (createUserCheck sampleHash (fun x => x) sampleUserReq).sess.store = sampleStore :=
  ⟨(createUser_conflict sampleHash (fun x => x) sampleUserReq rfl (by decide)).2.2.2.1,
    (createUser_conflict sampleHash (fun x => x) sampleUserReq rfl (by decide)).2.1⟩

/-- C4, as stated, fails on the code: `createBoxHandler` checks ownership of a
Device (`checkAccessRight("devices", "DeviceID", true, ...)`), so Box declares
the parent Device, where the claim has Box declare no parent. -/
theorem parentKind_box_counterexample :
    parentKind Kind.Box = some Kind.Device ∧ specParentKind Kind.Box = none ∧
      ¬ (∀ k, parentKind k = specParentKind k) := by
  refine ⟨by decide, by decide, ?_⟩
  intro h
  exact absurd (h Kind.Box) (by decide)

/-- C4, amended. The parent-kind relation declared by the ownership checks of
the create handlers is exactly Box→Device, Plant→Box, Timelapse→Plant,
FeedEntry→Feed, FeedMedia→FeedEntry, PlantSharing→FeedEntry, with Device and
Feed declaring no parent. It is acyclic: every parent is one step nearer to a
root, and no kind is its own ancestor. Following parents from any
ownership-bearing kind ends, within four steps, at one of the roots Device
and Feed. -/
theorem ownership_graph (k : Kind) (hk : k ∈ ownershipBearing) :
    (parentKind Kind.Box = some Kind.Device ∧ parentKind Kind.Plant = some Kind.Box ∧
      parentKind Kind.Timelapse = some Kind.Plant ∧ parentKind Kind.FeedEntry = some Kind.Feed ∧
      parentKind Kind.FeedMedia = some Kind.FeedEntry ∧
      parentKind Kind.PlantSharing = some Kind.FeedEntry ∧
      parentKind Kind.Device = none ∧ parentKind Kind.Feed = none) ∧
    (∀ p, parentKind k = some p → depth p < depth k) ∧
    (∀ n, 0 < n → ancestor n k ≠ some k) ∧
    ∃ root, rootOf 4 k = some root ∧ parentKind root = none ∧
      (root = Kind.Device ∨ root = Kind.Feed) := by
  refine ⟨by decide, ?_, ?_, ?_⟩
  · intro p hp
    have := parent_depth k p hp
    omega
  · intro n hn h
    have := ancestor_depth n k k h
    omega
  · revert k
    decide

/-- Witness of C4, amended: from Timelapse the parents lead to the root Device. -/
theorem ownership_graph_witness :
    ∃ root, rootOf 4 Kind.Timelapse = some root ∧ parentKind root = none ∧
      (root = Kind.Device ∨ root = Kind.Feed) :=
  (ownership_graph Kind.Timelapse (by decide)).2.2.2

/-- C5, as stated, fails on the code: on the sample store with a database
whose first call fails (the snapshot query on `boxes`), signing succeeds and
the post-action reports nothing: no status and no body are written, the next
handler gets the request, and the box of user 1 has no mirror row. -/
theorem fanout_failure_counterexample :
    faultyReq.sess.fault = some "connection reset" ∧
    (createUserEndPost sampleSigner ⟨7⟩ ⟨1⟩ (fun x => x) faultyReq).w.status = none ∧
    (createUserEndPost sampleSigner ⟨7⟩ ⟨1⟩ (fun x => x) faultyReq).w.status
      ≠ some StatusInternalServerError ∧
    (createUserEndPost sampleSigner ⟨7⟩ ⟨1⟩ (fun x => x) faultyReq).w.body = [] ∧
    (createUserEndPost sampleSigner ⟨7⟩ ⟨1⟩ (fun x => x) faultyReq).sess.store.mirrors
      = [("userend_plants", ⟨UserEndType.UserEndPlant, ⟨7⟩, ⟨11⟩, true⟩)] := by
  decide

/-- C5, amended. When signing succeeds, whatever snapshot queries or mirror-row
inserts fail, the UserEnd post-action reports no error and goes on. It calls
the next handler on a response that differs from the incoming one only by the
header `x-sgl-token`, set to the signed token (status and body untouched).
The operations it issues are exactly, for each of the seven collections in
turn, the query and, when that query does not fail, one insert for each row
of the user (`snapshotOps`): every collection is queried and every block of
operations is in the log whatever failed before. The mirror rows after it are
the earlier ones followed by the row of every insert that did not fail
(`landed`); users, UserEnd rows and resources are kept. -/
theorem fanout_failure_dropped (env : Signer) (id uid : UUID) (fn : Req → Req) (r : Req)
    (tokenString : String)
    (hsign : env.SignedString
      ⟨"HS256", [("userID", uid.String), ("userEndID", id.String)]⟩ env.JWTSecret
        = Except.ok tokenString) :
    createUserEndPost env id uid fn r = fn (createUserEndPost env id uid (fun x => x) r) ∧
    (createUserEndPost env id uid (fun x => x) r).w
      = r.w.HeaderSet "x-sgl-token" tokenString ∧
    (createUserEndPost env id uid (fun x => x) r).w.status = r.w.status ∧
    (createUserEndPost env id uid (fun x => x) r).w.body = r.w.body ∧
    (createUserEndPost env id uid (fun x => x) r).w.HeaderGet "x-sgl-token"
      = some tokenString ∧
    r.sess.keeps (createUserEndPost env id uid (fun x => x) r).sess ∧
    (createUserEndPost env id uid (fun x => x) r).sess.log
      = r.sess.log ++ snapshotOps r.sess.faults r.sess.store.objects uid id
          snapshotCollections r.sess.log.length ∧
    (createUserEndPost env id uid (fun x => x) r).sess.store.mirrors
      = r.sess.store.mirrors ++ landed r.sess.faults r.sess.log.length
          (snapshotOps r.sess.faults r.sess.store.objects uid id
            snapshotCollections r.sess.log.length) ∧
    (∀ ct ∈ snapshotCollections,
      DBOp.selectAll ct.1 uid ∈ (createUserEndPost env id uid (fun x => x) r).sess.log) ∧
    (∀ ct ∈ snapshotCollections, ∃ j,
      List.IsInfix (queryOps r.sess.faults r.sess.store.objects uid id ct.1 ct.2 j)
        (createUserEndPost env id uid (fun x => x) r).sess.log) := by
  obtain ⟨_, hl, _, hm⟩ := enrollSnapshot_faults r.sess id uid
  rw [createUserEndPost_ok env id uid fn r tokenString hsign,
    createUserEndPost_ok env id uid (fun x => x) r tokenString hsign]
  refine ⟨?_, ?_, ?_, ?_, ?_, ?_, ?_, ?_, ?_, ?_⟩
  · simp only []
  · rfl
  · rfl
  · rfl
  · exact headerGet_headerSet _ _ _
  · simp only []
    exact enrollSnapshot_keeps r.sess id uid
  · simp only []
    exact hl
  · simp only []
    exact hm
  · intro ct hct
    simp only []
    rw [hl]
    exact List.mem_append_right _ (selectAll_mem_snapshotOps _ _ _ _ _ _ ct hct)
  · intro ct hct
    simp only []
    rw [hl]
    obtain ⟨j, pre, post, hj⟩ :=
      queryOps_infix_snapshotOps r.sess.faults r.sess.store.objects uid id
        snapshotCollections r.sess.log.length ct hct
    exact ⟨j, r.sess.log ++ pre, post, by rw [← hj]; simp only [List.append_assoc]⟩

/-- Witness of C5, amended. With the failing query on `boxes` nothing is
reported, the six other collections are still queried and the plant of user 1
gets its mirror row. With the failing insert for box 10 the insert for box 13
is still issued and lands, and the UserEnd row of device 7 is still there. -/
theorem fanout_failure_dropped_witness :
    (createUserEndPost sampleSigner ⟨7⟩ ⟨1⟩ (fun x => x) faultyReq).w.status = faultyReq.w.status ∧
    (createUserEndPost sampleSigner ⟨7⟩ ⟨1⟩ (fun x => x) faultyReq).sess.log
      = [DBOp.selectAll "boxes" ⟨1⟩, DBOp.selectAll "plants" ⟨1⟩,
         DBOp.insert "userend_plants" ⟨UserEndType.UserEndPlant, ⟨7⟩, ⟨11⟩, true⟩,
         DBOp.selectAll "timelapses" ⟨1⟩, DBOp.selectAll "devices" ⟨1⟩,
         DBOp.selectAll "feeds" ⟨1⟩, DBOp.selectAll "feedentries" ⟨1⟩,
         DBOp.selectAll "feedmedias" ⟨1⟩] ∧
    (createUserEndPost sampleSigner ⟨7⟩ ⟨1⟩ (fun x => x) faultyReq).sess.store.mirrors
      = [("userend_plants", ⟨UserEndType.UserEndPlant, ⟨7⟩, ⟨11⟩, true⟩)] ∧
    (createUserEndPost sampleSigner ⟨7⟩ ⟨1⟩ (fun x => x) faultyInsertReq).sess.log
      = [DBOp.selectAll "boxes" ⟨1⟩,
         DBOp.insert "userend_boxes" ⟨UserEndType.UserEndBox, ⟨7⟩, ⟨10⟩, true⟩,
         DBOp.insert "userend_boxes" ⟨UserEndType.UserEndBox, ⟨7⟩, ⟨13⟩, true⟩,
         DBOp.selectAll "plants" ⟨1⟩, DBOp.selectAll "timelapses" ⟨1⟩,
         DBOp.selectAll "devices" ⟨1⟩, DBOp.selectAll "feeds" ⟨1⟩,
         DBOp.selectAll "feedentries" ⟨1⟩, DBOp.selectAll "feedmedias" ⟨1⟩] ∧
    (createUserEndPost sampleSigner ⟨7⟩ ⟨1⟩ (fun x => x) faultyInsertReq).sess.store.mirrors
      = [("userend_boxes", ⟨UserEndType.UserEndBox, ⟨7⟩, ⟨13⟩, true⟩)] ∧
    (createUserEndPost sampleSigner ⟨7⟩ ⟨1⟩ (fun x => x) faultyInsertReq).sess.store.userends
      = [⟨⟨7⟩, ⟨1⟩⟩] :=
  ⟨(fanout_failure_dropped sampleSigner ⟨7⟩ ⟨1⟩ (fun x => x) faultyReq _ (by rfl)).2.2.1,
    (fanout_failure_dropped sampleSigner ⟨7⟩ ⟨1⟩ (fun x => x) faultyReq _
      (by rfl)).2.2.2.2.2.2.1.trans (by decide),
    (fanout_failure_dropped sampleSigner ⟨7⟩ ⟨1⟩ (fun x => x) faultyReq _
      (by rfl)).2.2.2.2.2.2.2.1.trans (by decide),
    (fanout_failure_dropped sampleSigner ⟨7⟩ ⟨1⟩ (fun x => x) faultyInsertReq _
      (by rfl)).2.2.2.2.2.2.1.trans (by decide),
    (fanout_failure_dropped sampleSigner ⟨7⟩ ⟨1⟩ (fun x => x) faultyInsertReq _
      (by rfl)).2.2.2.2.2.2.2.1.trans (by decide),
    (fanout_failure_dropped sampleSigner ⟨7⟩ ⟨1⟩ (fun x => x) faultyInsertReq _
      (by rfl)).2.2.2.2.2.1.2.1⟩

/-- C8 on the code: of the seven fan-out-eligible kinds, Box is the one whose
create handler does not pass its own mirror to `createUserEndObjects`:
`createBoxHandler` passes `userend_devices`, `DeviceID` and `UserEndDevice`,
where the enrollment snapshot fills `userend_boxes` with `UserEndBox` rows for
the boxes. The six other handlers pass their own mirror. -/
theorem createBox_mirror_mismatch :
    createBoxHandler.mirror
      = some ("userend_devices", "DeviceID", UserEndType.UserEndDevice) ∧
    ownMirror Kind.Box = some ("userend_boxes", "BoxID", UserEndType.UserEndBox) ∧
    (enrollSnapshot ⟨⟨[], [], [("boxes", ⟨⟨10⟩, ⟨1⟩⟩)], []⟩, [], []⟩ ⟨7⟩ ⟨1⟩).store.mirrors
      = [("userend_boxes", ⟨UserEndType.UserEndBox, ⟨7⟩, ⟨10⟩, true⟩)] ∧
    fanoutEligible.filter (fun k => decide ((createHandler k).mirror ≠ ownMirror k))
      = [Kind.Box] := by
  decide

/-- C9 on the code: for the public plant `basil` whose latest feed media has
file URL `https://cdn/f.jpg` and thumbnail URL `https://cdn/t.jpg`, the entry
of the listing has the file URL as `ThumbnailPath` and the thumbnail URL as
`FilePath`: the two are swapped. Identifier, name, and the number of entries
are as the claim has them. -/
theorem fetchPublicPlants_swaps_paths :
    fetchPublicPlants samplePublicEnv [("offset", "0"), ("limit", "10")] freshPub
      = Outcome.returned
          { w := { header := [], status := some 200,
                   body := [Written.publicPlantsResult
                     [{ ID := "00000000-0000-0000-0000-000000000001",
                        Name := "basil",
                        ThumbnailPath := "https://cdn/f.jpg",
                        FilePath := "https://cdn/t.jpg" }]] },
            queries := [Query.publicPlants 0 10, Query.latestFeedMedia ⟨1⟩] } := by
  decide

/-- C10 on the code: the texts `0`, `51` and `-1` parse as integers; with
`limit=0` and with `limit=51` both listing handlers panic (the guard calls
`err.Error()` on a nil error) and write no error status; with `limit=-1` both
run the listing query, with limit `-1`. -/
theorem fetchPublic_limit_guard :
    (Atoi "0" = Except.ok 0 ∧ Atoi "51" = Except.ok 51 ∧ Atoi "-1" = Except.ok (-1)) ∧
    fetchPublicPlants samplePublicEnv [("offset", "0"), ("limit", "0")] freshPub
      = Outcome.panicked freshPub ∧
    fetchPublicPlants samplePublicEnv [("offset", "0"), ("limit", "51")] freshPub
      = Outcome.panicked freshPub ∧
    fetchPublicFeedEntries samplePublicEnv [("offset", "0"), ("limit", "0")] "p1" freshPub
      = Outcome.panicked freshPub ∧
    fetchPublicFeedEntries samplePublicEnv [("offset", "0"), ("limit", "51")] "p1" freshPub
      = Outcome.panicked freshPub ∧
    fetchPublicPlants samplePublicEnv [("offset", "0"), ("limit", "-1")] freshPub
      = Outcome.returned
          { w := { header := [], status := some 200,
                   body := [Written.publicPlantsResult
                     [⟨"00000000-0000-0000-0000-000000000001", "basil",
                       "https://cdn/f.jpg", "https://cdn/t.jpg"⟩]] },
            queries := [Query.publicPlants 0 (-1), Query.latestFeedMedia ⟨1⟩] } ∧
    fetchPublicFeedEntries samplePublicEnv [("offset", "0"), ("limit", "-1")] "p1" freshPub
      = Outcome.returned
          { w := { header := [], status := some 200,
                   body := [Written.publicFeedEntriesResult [⟨⟨5⟩⟩]] },
            queries := [Query.publicFeedEntries "p1" 0 (-1)] } := by
  refine ⟨⟨rfl, rfl, rfl⟩, ?_⟩
  decide

end Feeds
